import Mathlib

/-!
Shallow embedding of `src/chassis-frontend.c` (mysql-proxy chassis frontend).

The file models the Unix (non-WIN32) branch of the source.  External
collaborators (glib, `chassis-path.c`, `chassis-plugin.c`, `chassis-keyfile.c`,
`chassis-filemode.c`, the OS) are abstracted as function parameters or, where a
claim depends on repository code that is not part of `src/`, modelled from the
spec (each such definition says so in its doc comment).

C idioms are rendered as follows: an `int` return code becomes `Int`
(0 success, -1 failure); an out-parameter becomes a component of the returned
tuple; a `NULL`-able pointer becomes `Option`; the NULL-terminated
`gchar **plugin_names` vector becomes `Option (List String)` (NULL list vs. a
list of entries); the `GPtrArray *plugins` becomes `List chassis_plugin`.
-/

namespace ChassisFrontend

/-- `G_DIR_SEPARATOR` of glib on Unix. -/
def G_DIR_SEPARATOR : Char := '/'

/-- The `G_MODULE_PREFIX` macro defined in `chassis_frontend_load_plugins`
(non-WIN32 branch): `#define G_MODULE_PREFIX "lib"`. -/
def G_MODULE_PREFIX_STR : String := "lib"

/-- `SHARED_LIBRARY_SUFFIX` defaults to glib's `G_MODULE_SUFFIX`, which is
`"so"` (no dot) on Unix-like platforms. -/
def SHARED_LIBRARY_SUFFIX : String := "so"

/-- glib `g_path_is_absolute` (Unix branch): a path is absolute iff it starts
with the directory separator (stated on the character list so that it reduces
on literals). -/
def g_path_is_absolute (p : String) : Bool :=
  match p.data with
  | [] => false
  | c :: _ => c == G_DIR_SEPARATOR

/-- glib `g_build_filename`: joins components with the directory separator. -/
def g_build_filename (parts : List String) : String :=
  String.intercalate (String.singleton G_DIR_SEPARATOR) parts

/-!  ## chassis_frontend_init_basedir (lines 112-140)

`chassis_get_basedir` lives in `chassis-path.c` (external to `src/`); it is
abstracted as a parameter `getBasedir : String → Option String` (NULL result
becomes `none`).  The C function reads and possibly writes `*_base_dir`; we
return the pair (return code, final `*_base_dir`). -/

def chassis_frontend_init_basedir (getBasedir : String → Option String)
    (prg_name : String) (base_dir : Option String) : Int × Option String :=
  match base_dir with
  | some bd =>
    if g_path_is_absolute bd = false then
      (-1, some bd)
    else
      (0, some bd)
  | none =>
    match getBasedir prg_name with
    | none => (-1, none)
    | some bd => (0, some bd)

/-!  ## Plugin file names (lines 286-299)

`chassis_frontend_load_plugins` builds the module file name with
`g_strdup_printf("%s%c%s%s.%s", plugin_dir, G_DIR_SEPARATOR, G_MODULE_PREFIX,
plugin_names[i], SHARED_LIBRARY_SUFFIX)`. -/

def build_plugin_filename (plugin_dir name : String) : String :=
  plugin_dir ++ String.singleton G_DIR_SEPARATOR ++ G_MODULE_PREFIX_STR
    ++ name ++ "." ++ SHARED_LIBRARY_SUFFIX

/-!  ## Option entries

Glib's `GOptionEntry` carries a long name, an argument kind and a pointer to a
target slot.  The slot is modelled in-place as an `Option String` value
(`none` = the C target still holds NULL / unset, `some v` = the slot holds
`v`); the argument kind keeps only the distinction the source uses
(`G_OPTION_ARG_FILENAME` values are path-resolved, others are not). -/

inductive GOptionArg where
  | argNone
  | argString
  | argFilename
deriving DecidableEq, Repr

structure GOptionEntry where
  long_name : String
  arg : GOptionArg
  value : Option String
deriving DecidableEq, Repr

/-- `chassis_plugin` (from `chassis-plugin.h`): the identity and the optional
option schema the loaded module exports; the dlopen handle is not modelled. -/
structure chassis_plugin where
  name : String
  options : Option (List GOptionEntry)
deriving DecidableEq, Repr

/-- `chassis_plugin_get_options` (external, `chassis-plugin.c`): queries the
loaded module for its optional option-entry table. -/
def chassis_plugin_get_options (p : chassis_plugin) : Option (List GOptionEntry) :=
  p.options

/-!  ## chassis_frontend_load_plugins (lines 269-312)

`chassis_plugin_load` (external, `chassis-plugin.c`) is abstracted as
`load : String → Option chassis_plugin` (NULL on failure).  The C function
mutates the `GPtrArray *plugins` by `g_ptr_array_add`; the model threads the
array through and returns (return code, final array).  The NULL-terminated
`plugin_names` vector is `Option (List String)`: the C loop guard
`plugin_names && plugin_names[i]` skips the whole loop on a NULL vector. -/

def load_plugins_loop (load : String → Option chassis_plugin)
    (plugin_dir : String) :
    List chassis_plugin → List String → Int × List chassis_plugin
  | plugins, [] => (0, plugins)
  | plugins, n :: rest =>
    if n = "" then
      load_plugins_loop load plugin_dir plugins rest
    else
      match load (build_plugin_filename plugin_dir n) with
      | none => (-1, plugins)
      | some p => load_plugins_loop load plugin_dir (plugins ++ [p]) rest

def chassis_frontend_load_plugins (load : String → Option chassis_plugin)
    (plugins : List chassis_plugin) (plugin_dir : String)
    (plugin_names : Option (List String)) : Int × List chassis_plugin :=
  match plugin_names with
  | none => (0, plugins)
  | some names => load_plugins_loop load plugin_dir plugins names

/-!  ## Key files (structured config)

Glib's `GKeyFile` is modelled as its observable content: the list separator
set by `g_key_file_set_list_separator` and the parsed section-keyed mapping. -/

structure GKeyFile where
  list_separator : Char
  groups : List (String × List (String × String))
deriving DecidableEq, Repr

/-- glib `g_key_file_get_string`-style lookup of `key` in section `group`. -/
def g_key_file_lookup (kf : GKeyFile) (group key : String) : Option String :=
  match kf.groups.lookup group with
  | none => none
  | some kvs => kvs.lookup key

/-!  ## chassis_frontend_open_config_file (lines 387-410)

`chassis_filemode_check` lives in `chassis-filemode.c` (external to `src/`)
and is abstracted as `filemode_check : String → Int` (non-zero = the file's
permissions are unsafe).  `g_key_file_load_from_file` (glib) is abstracted as
`load_from_file : GKeyFile → String → Option GKeyFile`, loading the named file
into the freshly created key file (`none` = parse/IO failure). -/

def chassis_frontend_open_config_file (filemode_check : String → Int)
    (load_from_file : GKeyFile → String → Option GKeyFile)
    (filename : String) : Option GKeyFile :=
  if filemode_check filename ≠ 0 then
    none
  else
    let keyfile : GKeyFile := { list_separator := ',', groups := [] }
    match load_from_file keyfile filename with
    | none => none
    | some kf => some kf

/-!  ## chassis_keyfile_to_options / chassis_keyfile_resolve_path

Modelled from the spec: both functions live in `chassis-keyfile.c`, which is
not part of this source tree; only their call sites (lines 347 and 353) are.
Per the spec (§4.3): "Values not supplied on the command line and present in
the matching config-file section are copied into the target slot before path
normalization runs; a value supplied on the command line is never overwritten
by the config file", and (§3, ResolvedPath / §4.1 normalize_path): a
path-typed value that is relative is joined with the base directory, an
absolute one passes through unchanged. -/

/-- Modelled from the spec: `chassis_keyfile_to_options(keyfile, groupname,
entries)` (missing `chassis-keyfile.c`) copies the value found under
`groupname`/long-name into each entry whose target slot is still unset; a slot
that already holds a value is never overwritten. -/
def chassis_keyfile_to_options (kf : GKeyFile) (groupname : String)
    (entries : List GOptionEntry) : List GOptionEntry :=
  entries.map fun e =>
    match e.value with
    | some _ => e
    | none =>
      match g_key_file_lookup kf groupname e.long_name with
      | some v => { e with value := some v }
      | none => e

/-- Modelled from the spec: `chassis_keyfile_resolve_path(base_dir, entries)`
(missing `chassis-keyfile.c`) rewrites each path-typed (filename) entry whose
value is a relative path to that path joined under the base directory. -/
def chassis_keyfile_resolve_path (base_dir : String)
    (entries : List GOptionEntry) : List GOptionEntry :=
  entries.map fun e =>
    match e.arg, e.value with
    | GOptionArg.argFilename, some v =>
      if g_path_is_absolute v then e
      else { e with value := some (g_build_filename [base_dir, v]) }
    | _, _ => e

/-!  ## Option context and argument parsing

Glib's `GOptionContext` is modelled by its observable configuration: the long
option names registered so far (main entries plus every added group's
entries), the names of the added groups, and the two flags the source sets.
Arguments are modelled as GNU-style long options: an argument `--name` or
`--name=value` is recognized iff `name` is registered.  Short options and
non-option positional arguments pass through the model untouched, which is
all the claims under verification depend on. -/

structure GOptionContext where
  known : List String
  groups : List String
  ignore_unknown : Bool
  help_enabled : Bool
deriving DecidableEq, Repr

/-- An argument is a long option iff it starts with "--" (stated on the
character list so that it reduces on literals). -/
def isLongOpt (a : String) : Bool :=
  match a.data with
  | '-' :: '-' :: _ => true
  | _ => false

/-- The option name of a long argument: the text after "--" and before the
first "=" (stated on the character list so that it reduces on literals). -/
def optKey (a : String) : String :=
  String.mk ((a.data.drop 2).takeWhile (fun c => c != '='))

/-- The inline value of a long argument `--name=value`, if any. -/
def optVal (a : String) : Option String :=
  match (a.data.drop 2).dropWhile (fun c => c != '=') with
  | [] => none
  | _ :: v => some (String.mk v)

/-- An argument the context recognizes: a long option whose name is
registered. -/
def recognized (ctx : GOptionContext) (a : String) : Bool :=
  isLongOpt a && ctx.known.contains (optKey a)

/-- glib `g_option_context_parse`: consumes the recognized options from argv
and returns the remaining arguments; an unrecognized long option is left in
argv when `ignore_unknown` is set (`g_option_context_set_ignore_unknown_options`)
and makes the parse fail (`none`, a `GError`) otherwise. -/
def g_option_context_parse (ctx : GOptionContext) (argv : List String) :
    Option (List String) :=
  if ctx.ignore_unknown = true then
    some (argv.filter fun a => !(recognized ctx a))
  else if argv.any (fun a => isLongOpt a && !(ctx.known.contains (optKey a))) then
    none
  else
    some (argv.filter fun a => !(recognized ctx a))

/-- The value the parse writes into an entry's target slot: the inline value
of the last matching `--name=value` occurrence in argv (last occurrence wins),
or the slot as it was when argv does not mention the option. -/
def apply_argv_values (argv : List String) (entries : List GOptionEntry) :
    List GOptionEntry :=
  entries.map fun e =>
    match (argv.filterMap fun a =>
        if isLongOpt a && (optKey a == e.long_name) then optVal a
        else none).getLast? with
    | some v => { e with value := some v }
    | none => e

/-!  ## chassis_frontend_init_base_options (lines 359-385) and the base
option table (lines 415-426)

`chassis_options_new` / `chassis_options_add` /
`chassis_options_to_g_option_entries` live in `chassis-options.c` (external to
`src/`); the option list is modelled by the long names it registers, which is
what `chassis_options_set_cmdline_only_options` (in `src/`) adds: "version"
and "defaults-file".  The target slots of these two base options play no role
in any claim and are elided. -/

def chassis_options_set_cmdline_only_options (opts : List String) : List String :=
  opts ++ ["version", "defaults-file"]

def chassis_frontend_init_base_options (ctx : GOptionContext)
    (argv : List String) : Int × GOptionContext × List String :=
  let base_main_entries := chassis_options_set_cmdline_only_options []
  let ctx1 : GOptionContext :=
    { ctx with
      known := ctx.known ++ base_main_entries,
      help_enabled := false,
      ignore_unknown := true }
  match g_option_context_parse ctx1 argv with
  | none => (-1, ctx1, argv)
  | some argv2 => (0, ctx1, argv2)

/-- Modelled from the spec: the strict final pass of the Bootstrapper.  The
orchestrating caller that re-runs the parse once all plugin groups are
registered is not part of this source file; per the spec, "Unknown options are
tolerated during the first pass (base-options pass) and rejected during the
final pass once all plugin groups are registered", so the final pass runs with
unknown-option tolerance disabled. -/
def bootstrap_final_parse (ctx : GOptionContext) (argv : List String) :
    Option (List String) :=
  g_option_context_parse { ctx with ignore_unknown := false } argv

/-!  ## chassis_frontend_init_plugins (lines 314-358)

For each plugin exporting an option table the source: creates an option group
named `p->name` (with description "<name>-module"), adds the plugin's entries
to it, adds the group to the context, re-parses argv, then — when a key file
was loaded — overlays `chassis_keyfile_to_options(keyfile, "mysql-proxy",
config_entries)` and resolves path-typed entries against the base directory.
The C function mutates the entries owned by each plugin in place; the model
returns the updated plugin list alongside (return code, context, argv). -/

def chassis_frontend_init_plugins_loop (keyfile : Option GKeyFile)
    (base_dir : String) :
    GOptionContext → List String → List chassis_plugin →
      Int × GOptionContext × List String × List chassis_plugin
  | ctx, argv, [] => (0, ctx, argv, [])
  | ctx, argv, p :: rest =>
    match chassis_plugin_get_options p with
    | none =>
      match chassis_frontend_init_plugins_loop keyfile base_dir ctx argv rest with
      | (r, ctx2, argv2, rest2) => (r, ctx2, argv2, p :: rest2)
    | some config_entries =>
      let group_name := p.name
      let ctx1 : GOptionContext :=
        { ctx with
          groups := ctx.groups ++ [group_name],
          known := ctx.known ++ config_entries.map (fun e => e.long_name) }
      match g_option_context_parse ctx1 argv with
      | none => (-1, ctx1, argv, p :: rest)
      | some argv1 =>
        let entries1 := apply_argv_values argv config_entries
        let entries2 :=
          match keyfile with
          | some kf => chassis_keyfile_to_options kf "mysql-proxy" entries1
          | none => entries1
        let entries3 := chassis_keyfile_resolve_path base_dir entries2
        match chassis_frontend_init_plugins_loop keyfile base_dir ctx1 argv1 rest with
        | (r, ctx2, argv2, rest2) =>
          (r, ctx2, argv2, { p with options := some entries3 } :: rest2)

def chassis_frontend_init_plugins (plugins : List chassis_plugin)
    (ctx : GOptionContext) (argv : List String) (keyfile : Option GKeyFile)
    (base_dir : String) :
    Int × GOptionContext × List String × List chassis_plugin :=
  chassis_frontend_init_plugins_loop keyfile base_dir ctx argv plugins

/-!  ## Lua search-path seeding (lines 150-251)

The process environment is modelled as an association list; `g_setenv` (which
can fail) is abstracted as `setenvImpl : List (String × String) → String →
String → Option (List (String × String))` (`none` = failure).  The read-back
verification inside `chassis_frontend_lua_setenv` only emits `g_critical`
diagnostics, which have no modelled effect. -/

def LUA_PATH_NAME : String := "LUA_PATH"

def LUA_CPATH_NAME : String := "LUA_CPATH"

/-- glib `g_getenv` on the modelled environment. -/
def g_getenv (env : List (String × String)) (key : String) : Option String :=
  env.lookup key

/-- `chassis_frontend_lua_setenv` (lines 150-172): calls `g_setenv` and
returns 0 when it succeeded, -1 when it failed; the getenv read-back check
only logs. -/
def chassis_frontend_lua_setenv
    (setenvImpl : List (String × String) → String → String →
      Option (List (String × String)))
    (env : List (String × String)) (key value : String) :
    Int × List (String × String) :=
  match setenvImpl env key value with
  | none => (-1, env)
  | some env2 => (0, env2)

/-- `chassis_frontend_get_default_lua_path` (lines 177-179). -/
def chassis_frontend_get_default_lua_path (base_dir prg_name : String) : String :=
  g_build_filename [base_dir, "lib", prg_name, "lua", "?.lua"]

/-- `chassis_frontend_get_default_lua_cpath` (lines 184-196, Unix branch). -/
def chassis_frontend_get_default_lua_cpath (base_dir prg_name : String) : String :=
  g_build_filename [base_dir, "lib", prg_name, "lua", "?." ++ SHARED_LIBRARY_SUFFIX]

/-- `chassis_frontend_init_lua_path` (lines 201-226): failures of the setenv
call are only logged; the function returns 0 on every path. -/
def chassis_frontend_init_lua_path
    (setenvImpl : List (String × String) → String → String →
      Option (List (String × String)))
    (env : List (String × String)) (set_path : Option String)
    (base_dir prg_name : String) : Int × List (String × String) :=
  match set_path with
  | some p =>
    match chassis_frontend_lua_setenv setenvImpl env LUA_PATH_NAME p with
    | (_r, env2) => (0, env2)
  | none =>
    match g_getenv env LUA_PATH_NAME with
    | some _ => (0, env)
    | none =>
      let path := chassis_frontend_get_default_lua_path base_dir prg_name
      match chassis_frontend_lua_setenv setenvImpl env LUA_PATH_NAME path with
      | (_r, env2) => (0, env2)

/-- `chassis_frontend_init_lua_cpath` (lines 231-251): same shape as
`chassis_frontend_init_lua_path` for the native-module path. -/
def chassis_frontend_init_lua_cpath
    (setenvImpl : List (String × String) → String → String →
      Option (List (String × String)))
    (env : List (String × String)) (set_path : Option String)
    (base_dir prg_name : String) : Int × List (String × String) :=
  match set_path with
  | some p =>
    match chassis_frontend_lua_setenv setenvImpl env LUA_CPATH_NAME p with
    | (_r, env2) => (0, env2)
  | none =>
    match g_getenv env LUA_CPATH_NAME with
    | some _ => (0, env)
    | none =>
      let path := chassis_frontend_get_default_lua_cpath base_dir prg_name
      match chassis_frontend_lua_setenv setenvImpl env LUA_CPATH_NAME path with
      | (_r, env2) => (0, env2)

/-!  ## chassis_frontend_write_pidfile (lines 443-482)

The pid file is modelled by its content (`none` = the file does not exist).
The two syscalls are abstracted by their outcomes: `open_ok` — whether
`open(pid_file, O_WRONLY|O_TRUNC|O_CREAT, 0600)` succeeds (on success the
file exists and is truncated to empty), and `write_ok` — whether the
subsequent `write` of the decimal pid succeeds.  The result is (return code,
error set?, final file content); on a write failure the function only sets
the error and closes the descriptor — nothing restores the pre-call file. -/

def chassis_frontend_write_pidfile (open_ok write_ok : Bool) (pid : Nat)
    (file : Option String) : Int × Bool × Option String :=
  if open_ok = false then
    (-1, true, file)
  else
    let file1 : Option String := some ""
    if write_ok = false then
      (-1, true, file1)
    else
      (0, false, some (toString pid))

/-!  ## Concrete inputs used by witnesses and counterexamples -/

/-- A loader for the C6 witness: only the module file of plugin "foo" under
"/pd" exists. -/
def fooLoad : String → Option chassis_plugin :=
  fun f =>
    if f = "/pd/libfoo.so" then some { name := "foo", options := none } else none

/-- A loader for the C3 theorems: only the module file of plugin "good" under
"/pd" exists; every other load fails. -/
def cexLoad : String → Option chassis_plugin :=
  fun f =>
    if f = "/pd/libgood.so" then some { name := "good", options := none } else none

/-- Key file for the C1 witness: the config file supplies a value for "x". -/
def kfC1 : GKeyFile :=
  { list_separator := ',', groups := [("mysql-proxy", [("x", "from-file")])] }

/-- Entry list for the C1 witness: the slot of "x" was already set (as the
parser does for an option supplied on the command line). -/
def entriesC1 : List GOptionEntry :=
  [{ long_name := "x", arg := GOptionArg.argString, value := some "from-argv" }]

/-- Option context for the C4 witness: nothing registered yet, tolerance off
(the state in which `main` hands the fresh context to the first pass). -/
def ctxC4 : GOptionContext :=
  { known := [], groups := [], ignore_unknown := false, help_enabled := true }

/-- Plugin for the C5 theorems: plugin "a" exports one unset string option
"x". -/
def pluginC5 : chassis_plugin :=
  { name := "a",
    options := some [{ long_name := "x", arg := GOptionArg.argString, value := none }] }

/-- Key file for the C5 counterexample: section "a" (the plugin's name) and
section "mysql-proxy" hold different values for the option "x". -/
def kfC5 : GKeyFile :=
  { list_separator := ',',
    groups := [("a", [("x", "va")]), ("mysql-proxy", [("x", "vm")])] }

/-- Option context for the C5 theorems: empty, with unknown options tolerated
(the state `chassis_frontend_init_base_options` leaves the context in). -/
def ctxC5 : GOptionContext :=
  { known := [], groups := [], ignore_unknown := true, help_enabled := false }

/-- Second plugin for the C5 amended witness: a different name and schema. -/
def pluginC5b : chassis_plugin :=
  { name := "b",
    options := some [{ long_name := "y", arg := GOptionArg.argString, value := none }] }

/-- Key files for the C5 amended witness: they agree on section "mysql-proxy"
but differ on the sections named after the plugins. -/
def kfC5w1 : GKeyFile :=
  { list_separator := ',',
    groups := [("mysql-proxy", [("x", "vm")]), ("a", [("x", "va")])] }

def kfC5w2 : GKeyFile :=
  { list_separator := ',',
    groups := [("mysql-proxy", [("x", "vm")]), ("b", [("y", "vb")])] }

end ChassisFrontend

namespace ChassisFrontend

/-- C2: for a non-NULL, non-absolute explicit base dir the function returns -1
and leaves `*_base_dir` unchanged, for every possible resolver (so resolution
is never attempted); for a non-NULL absolute base dir it returns 0 with
`*_base_dir` unchanged; for a NULL base dir it derives the directory from the
program path and fails exactly when that derivation fails. -/
theorem init_basedir_spec (getBasedir : String → Option String) (prg : String) :
    (∀ bd, g_path_is_absolute bd = false →
      chassis_frontend_init_basedir getBasedir prg (some bd) = (-1, some bd)) ∧
    (∀ bd, g_path_is_absolute bd = true →
      chassis_frontend_init_basedir getBasedir prg (some bd) = (0, some bd)) ∧
    (getBasedir prg = none →
      chassis_frontend_init_basedir getBasedir prg none = (-1, none)) ∧
    (∀ d, getBasedir prg = some d →
      chassis_frontend_init_basedir getBasedir prg none = (0, some d)) := by
  refine ⟨?_, ?_, ?_, ?_⟩
  · intro bd h
    simp [chassis_frontend_init_basedir, h]
  · intro bd h
    simp [chassis_frontend_init_basedir, h]
  · intro h
    simp [chassis_frontend_init_basedir, h]
  · intro d h
    simp [chassis_frontend_init_basedir, h]

/-- Witness for C2 at concrete inputs: the resolver maps "prg" to "/inst";
a relative explicit dir fails untouched, an absolute one passes untouched,
and with no explicit dir the resolver's answer is taken. -/
theorem init_basedir_spec_witness :
    chassis_frontend_init_basedir (fun _ => some "/inst") "prg" (some "rel/dir")
        = (-1, some "rel/dir") ∧
    chassis_frontend_init_basedir (fun _ => some "/inst") "prg" (some "/opt/x")
        = (0, some "/opt/x") ∧
    chassis_frontend_init_basedir (fun _ => some "/inst") "prg" none
        = (0, some "/inst") := by
  refine ⟨?_, ?_, ?_⟩
  · exact (init_basedir_spec (fun _ => some "/inst") "prg").1 "rel/dir" (by decide)
  · exact (init_basedir_spec (fun _ => some "/inst") "prg").2.1 "/opt/x" (by decide)
  · exact (init_basedir_spec (fun _ => some "/inst") "prg").2.2.2 "/inst" rfl

/-- Helper: when every non-empty requested name loads successfully, the loop
appends exactly the loaded plugin of each non-empty name, in request order. -/
theorem load_plugins_loop_success (load : String → Option chassis_plugin)
    (dir : String) (names : List String) :
    ∀ plugins : List chassis_plugin,
    (∀ n ∈ names, n ≠ "" → (load (build_plugin_filename dir n)).isSome = true) →
    load_plugins_loop load dir plugins names =
      (0, plugins ++ names.filterMap (fun n =>
        if n = "" then none else load (build_plugin_filename dir n))) := by
  induction names with
  | nil =>
    intro plugins _
    simp [load_plugins_loop]
  | cons n rest ih =>
    intro plugins h
    by_cases hn : n = ""
    · subst hn
      simpa [load_plugins_loop] using
        ih plugins (fun m hm hne => h m (List.mem_cons_of_mem _ hm) hne)
    · obtain ⟨p, hp⟩ :=
        Option.isSome_iff_exists.mp (h n (List.mem_cons_self _ _) hn)
      rw [show load_plugins_loop load dir plugins (n :: rest)
            = load_plugins_loop load dir (plugins ++ [p]) rest by
          simp [load_plugins_loop, hn, hp]]
      rw [ih (plugins ++ [p]) (fun m hm hne => h m (List.mem_cons_of_mem _ hm) hne)]
      simp [hn, hp]

/-- C6: the loader iterates the requested names in order, skips empty-string
names as a no-op, and appends exactly one plugin per non-empty name in request
order; an empty list or a NULL name vector loads zero plugins and succeeds. -/
theorem load_plugins_order_spec (load : String → Option chassis_plugin)
    (plugins : List chassis_plugin) (dir : String) (names : List String)
    (h : ∀ n ∈ names, n ≠ "" → (load (build_plugin_filename dir n)).isSome = true) :
    chassis_frontend_load_plugins load plugins dir (some names) =
      (0, plugins ++ names.filterMap (fun n =>
        if n = "" then none else load (build_plugin_filename dir n))) ∧
    chassis_frontend_load_plugins load plugins dir (some []) = (0, plugins) ∧
    chassis_frontend_load_plugins load plugins dir none = (0, plugins) :=
  ⟨load_plugins_loop_success load dir names plugins h, rfl, rfl⟩

/-- Witness for C6: requesting ["", "foo"] loads exactly the one plugin "foo";
an empty or NULL request list loads zero plugins and succeeds. -/
theorem load_plugins_order_spec_witness :
    chassis_frontend_load_plugins fooLoad [] "/pd" (some ["", "foo"]) =
      (0, [{ name := "foo", options := none }]) ∧
    chassis_frontend_load_plugins fooLoad [] "/pd" (some []) = (0, []) ∧
    chassis_frontend_load_plugins fooLoad [] "/pd" none = (0, []) := by
  have h := load_plugins_order_spec fooLoad [] "/pd" ["", "foo"] (by decide)
  refine ⟨?_, h.2.1, h.2.2⟩
  rw [h.1]
  decide

/-- C3 counterexample: requesting ["good", "bad"] against a loader that fails
on "bad" returns the error code -1, yet the plugins collection (which started
empty) now contains the plugin added for "good" by that very call — a failed
call does leave behind plugins it added. -/
theorem load_plugins_no_rollback_counterexample :
    (chassis_frontend_load_plugins cexLoad [] "/pd" (some ["good", "bad"])).1 = -1 ∧
    (chassis_frontend_load_plugins cexLoad [] "/pd" (some ["good", "bad"])).2
      = [{ name := "good", options := none }] := by
  decide

/-- C3 amended: when a load fails, the call aborts at that name with -1 — the
names after it are never attempted (the result does not depend on `post`) —
but the plugins loaded for the names before it remain appended to the
collection, so the caller can observe a partial plugin set. -/
theorem load_plugins_fail_fast_spec (load : String → Option chassis_plugin)
    (plugins : List chassis_plugin) (dir : String)
    (pre : List String) (n : String) (post : List String)
    (hpre : ∀ m ∈ pre, m ≠ "" → (load (build_plugin_filename dir m)).isSome = true)
    (hn : n ≠ "") (hfail : load (build_plugin_filename dir n) = none) :
    chassis_frontend_load_plugins load plugins dir (some (pre ++ n :: post)) =
      (-1, plugins ++ pre.filterMap (fun m =>
        if m = "" then none else load (build_plugin_filename dir m))) := by
  induction pre generalizing plugins with
  | nil =>
    simp [chassis_frontend_load_plugins, load_plugins_loop, hn, hfail]
  | cons m rest ih =>
    have hrest : ∀ k ∈ rest, k ≠ "" →
        (load (build_plugin_filename dir k)).isSome = true :=
      fun k hk hne => hpre k (List.mem_cons_of_mem _ hk) hne
    by_cases hm : m = ""
    · subst hm
      simpa [chassis_frontend_load_plugins, load_plugins_loop] using ih plugins hrest
    · obtain ⟨p, hp⟩ :=
        Option.isSome_iff_exists.mp (hpre m (List.mem_cons_self _ _) hm)
      have step := ih (plugins ++ [p]) hrest
      simp only [chassis_frontend_load_plugins] at step ⊢
      rw [show load_plugins_loop load dir plugins ((m :: rest) ++ n :: post)
            = load_plugins_loop load dir (plugins ++ [p]) (rest ++ n :: post) by
          simp [load_plugins_loop, hm, hp]]
      rw [step]
      simp [hm, hp]

/-- Witness for C3 amended: with the "good"-only loader, the call for
["good", "bad"] aborts with -1 keeping the plugin loaded for "good". -/
theorem load_plugins_fail_fast_spec_witness :
    chassis_frontend_load_plugins cexLoad [] "/pd" (some (["good"] ++ "bad" :: [])) =
      (-1, [] ++ ["good"].filterMap (fun m =>
        if m = "" then none else cexLoad (build_plugin_filename "/pd" m))) :=
  load_plugins_fail_fast_spec cexLoad [] "/pd" ["good"] "bad" []
    (by decide) (by decide) (by decide)

/-- C8: the constructed shared-module file name is the concatenation
dir + separator + platform prefix + name + platform suffix, with prefix
`"lib"` and suffix `".so"` on the modelled Unix platform. -/
theorem build_plugin_filename_spec (dir name : String) :
    build_plugin_filename dir name = dir ++ "/" ++ "lib" ++ name ++ ".so" := by
  show dir ++ String.singleton G_DIR_SEPARATOR ++ G_MODULE_PREFIX_STR
      ++ name ++ "." ++ SHARED_LIBRARY_SUFFIX = dir ++ "/" ++ "lib" ++ name ++ ".so"
  have h1 : String.singleton G_DIR_SEPARATOR = "/" := rfl
  have h2 : G_MODULE_PREFIX_STR = "lib" := rfl
  have h3 : SHARED_LIBRARY_SUFFIX = "so" := rfl
  have h4 : ("." : String) ++ "so" = ".so" := by decide
  rw [h1, h2, h3, String.append_assoc (dir ++ "/" ++ "lib" ++ name) "." "so", h4]

/-- C7: the permission check runs before any parsing — when it fails the
result is NULL for every possible parser (the parser is never consulted) —
and a parse failure also yields NULL, so the caller never observes a partial
or untrusted mapping. -/
theorem open_config_file_spec (filemode_check : String → Int)
    (load_from_file : GKeyFile → String → Option GKeyFile) (filename : String) :
    (filemode_check filename ≠ 0 →
      ∀ load2 : GKeyFile → String → Option GKeyFile,
        chassis_frontend_open_config_file filemode_check load2 filename = none) ∧
    (load_from_file { list_separator := ',', groups := [] } filename = none →
      chassis_frontend_open_config_file filemode_check load_from_file filename
        = none) := by
  constructor
  · intro h load2
    simp [chassis_frontend_open_config_file, h]
  · intro hload
    by_cases h : filemode_check filename = 0
    · simp [chassis_frontend_open_config_file, h, hload]
    · simp [chassis_frontend_open_config_file, h]

/-- Witness for C7: a failing permission check yields NULL even though the
parser would have succeeded, and a failing parse yields NULL after a passing
permission check. -/
theorem open_config_file_spec_witness :
    chassis_frontend_open_config_file (fun _ => 1)
      (fun kf _ => some kf) "my.cnf" = none ∧
    chassis_frontend_open_config_file (fun _ => 0)
      (fun _ _ => none) "my.cnf" = none := by
  constructor
  · exact (open_config_file_spec (fun _ => 1) (fun _ _ => none) "my.cnf").1
      (by decide) (fun kf _ => some kf)
  · exact (open_config_file_spec (fun _ => 0) (fun _ _ => none) "my.cnf").2 rfl

/-- C1: overlaying config-file values never overwrites a slot that is already
set — for every entry position whose target slot already holds a value (such
as one written from argv by the preceding `g_option_context_parse`), the slot
after `chassis_keyfile_to_options` holds that same value. -/
theorem keyfile_to_options_no_overwrite (kf : GKeyFile) (groupname : String)
    (entries : List GOptionEntry) (i : Nat) (v : String)
    (h : i < entries.length)
    (h2 : i < (chassis_keyfile_to_options kf groupname entries).length)
    (hset : (entries.get ⟨i, h⟩).value = some v) :
    ((chassis_keyfile_to_options kf groupname entries).get ⟨i, h2⟩).value
      = some v := by
  simp only [List.get_eq_getElem] at hset ⊢
  simp only [chassis_keyfile_to_options] at h2 ⊢
  rw [List.getElem_map]
  rw [hset]
  exact hset

/-- Witness for C1: the overlay leaves the already-set slot holding the
command-line value even though the config file supplies a different one. -/
theorem keyfile_to_options_no_overwrite_witness :
    ((chassis_keyfile_to_options kfC1 "mysql-proxy" entriesC1).get
      ⟨0, by decide⟩).value = some "from-argv" :=
  keyfile_to_options_no_overwrite kfC1 "mysql-proxy" entriesC1 0 "from-argv"
    (by decide) (by decide) (by decide)

/-- C4: the base-options pass tolerates unknown options — it succeeds and
every unrecognized long option remains in the leftover argv — while the final
pass the Bootstrapper runs once all plugin groups are registered fails with a
parse error whenever an unrecognized long option remains in argv. -/
theorem two_pass_unknown_option_spec :
    (∀ (ctx : GOptionContext) (argv : List String),
      (chassis_frontend_init_base_options ctx argv).1 = 0) ∧
    (∀ (ctx : GOptionContext) (argv : List String) (a : String),
      a ∈ argv → isLongOpt a = true →
      ((ctx.known ++ chassis_options_set_cmdline_only_options []).contains
        (optKey a)) = false →
      a ∈ (chassis_frontend_init_base_options ctx argv).2.2) ∧
    (∀ (ctx : GOptionContext) (argv : List String) (a : String),
      a ∈ argv → isLongOpt a = true →
      ctx.known.contains (optKey a) = false →
      bootstrap_final_parse ctx argv = none) := by
  refine ⟨?_, ?_, ?_⟩
  · intro ctx argv
    simp [chassis_frontend_init_base_options, g_option_context_parse]
  · intro ctx argv a ha hlong hunk
    simp [chassis_frontend_init_base_options, g_option_context_parse,
      List.mem_filter, recognized, hlong, ha]
    simpa using hunk
  · intro ctx argv a ha hlong hunk
    have hmem : optKey a ∉ ctx.known := by simpa using hunk
    simp [bootstrap_final_parse, g_option_context_parse]
    exact ⟨a, ha, hlong, hmem⟩

/-- Witness for C4: the unknown option "--unknown-opt" survives the first
pass (which succeeds) and makes the final strict pass fail. -/
theorem two_pass_unknown_option_spec_witness :
    (chassis_frontend_init_base_options ctxC4 ["--unknown-opt"]).1 = 0 ∧
    "--unknown-opt" ∈ (chassis_frontend_init_base_options ctxC4 ["--unknown-opt"]).2.2 ∧
    bootstrap_final_parse ctxC4 ["--unknown-opt"] = none := by
  refine ⟨?_, ?_, ?_⟩
  · exact two_pass_unknown_option_spec.1 ctxC4 ["--unknown-opt"]
  · exact two_pass_unknown_option_spec.2.1 ctxC4 ["--unknown-opt"] "--unknown-opt"
      (by decide) (by decide) (by decide)
  · exact two_pass_unknown_option_spec.2.2 ctxC4 ["--unknown-opt"] "--unknown-opt"
      (by decide) (by decide) (by decide)

/-- C5 counterexample: plugin "a" has an unset option "x"; the config file's
section "a" (named after the plugin) holds x = "va" while section
"mysql-proxy" holds x = "vm".  After `chassis_frontend_init_plugins` the slot
holds "vm": the section consulted is not the one named after the plugin. -/
theorem init_plugins_section_counterexample :
    (chassis_frontend_init_plugins [pluginC5] ctxC5 [] (some kfC5) "/base").2.2.2
      = [{ name := "a",
           options := some [{ long_name := "x", arg := GOptionArg.argString,
                              value := some "vm" }] }] ∧
    some "vm" ≠ (g_key_file_lookup kfC5 "a" "x") := by
  decide

/-- Helper: the modelled overlay reads the key file only through the given
section — key files with an identical section produce identical overlays. -/
theorem keyfile_to_options_section_only (kf1 kf2 : GKeyFile) (groupname : String)
    (hlk : kf1.groups.lookup groupname = kf2.groups.lookup groupname)
    (entries : List GOptionEntry) :
    chassis_keyfile_to_options kf1 groupname entries
      = chassis_keyfile_to_options kf2 groupname entries := by
  unfold chassis_keyfile_to_options
  induction entries with
  | nil => rfl
  | cons e rest ih =>
    simp only [List.map_cons]
    rw [show g_key_file_lookup kf1 groupname e.long_name
          = g_key_file_lookup kf2 groupname e.long_name by
        simp [g_key_file_lookup, hlk]]
    rw [show rest.map _ = rest.map _ from ih]

/-- Helper: `chassis_frontend_init_plugins_loop` reads the key file only
through its "mysql-proxy" section. -/
theorem init_plugins_loop_keyfile_congr (kf1 kf2 : GKeyFile)
    (hlk : kf1.groups.lookup "mysql-proxy" = kf2.groups.lookup "mysql-proxy")
    (base_dir : String) :
    ∀ (plugins : List chassis_plugin) (ctx : GOptionContext) (argv : List String),
      chassis_frontend_init_plugins_loop (some kf1) base_dir ctx argv plugins
        = chassis_frontend_init_plugins_loop (some kf2) base_dir ctx argv plugins := by
  intro plugins
  induction plugins with
  | nil => intro ctx argv; rfl
  | cons p rest ih =>
    intro ctx argv
    unfold chassis_frontend_init_plugins_loop
    cases hopt : chassis_plugin_get_options p with
    | none =>
      simp only [ih ctx argv]
    | some config_entries =>
      simp only
      cases hp : g_option_context_parse
          { ctx with
            groups := ctx.groups ++ [p.name],
            known := ctx.known ++ config_entries.map (fun e => e.long_name) } argv with
      | none => rfl
      | some argv1 =>
        simp only
        rw [keyfile_to_options_section_only kf1 kf2 "mysql-proxy" hlk
          (apply_argv_values argv config_entries)]
        rw [ih { ctx with
            groups := ctx.groups ++ [p.name],
            known := ctx.known ++ config_entries.map (fun e => e.long_name) } argv1]

/-- Helper: a tolerant context parses successfully. -/
theorem parse_tolerant_some (ctx : GOptionContext) (argv : List String)
    (h : ctx.ignore_unknown = true) :
    g_option_context_parse ctx argv
      = some (argv.filter fun a => !(recognized ctx a)) := by
  simp [g_option_context_parse, h]

/-- Helper: under a tolerant context, the loop registers one option group per
plugin that exports a schema, named after that plugin, in plugin order. -/
theorem init_plugins_loop_groups (keyfile : Option GKeyFile) (base_dir : String) :
    ∀ (plugins : List chassis_plugin) (ctx : GOptionContext) (argv : List String),
      ctx.ignore_unknown = true →
      (chassis_frontend_init_plugins_loop keyfile base_dir ctx argv plugins).2.1.groups
        = ctx.groups ++ plugins.filterMap (fun p =>
            match p.options with
            | some _ => some p.name
            | none => none) := by
  intro plugins
  induction plugins with
  | nil =>
    intro ctx argv _
    simp [chassis_frontend_init_plugins_loop]
  | cons p rest ih =>
    intro ctx argv hign
    unfold chassis_frontend_init_plugins_loop
    cases hopt : chassis_plugin_get_options p with
    | none =>
      have hrec := ih ctx argv hign
      rcases hE : chassis_frontend_init_plugins_loop keyfile base_dir ctx argv rest
        with ⟨r, ctx2, argv2, rest2⟩
      rw [hE] at hrec
      have hopt2 : p.options = none := hopt
      simp only [hE, List.filterMap_cons, hopt2]
      exact hrec
    | some config_entries =>
      simp only
      rw [parse_tolerant_some
        { ctx with
          groups := ctx.groups ++ [p.name],
          known := ctx.known ++ config_entries.map (fun e => e.long_name) } argv hign]
      simp only
      have hrec := ih
        { ctx with
          groups := ctx.groups ++ [p.name],
          known := ctx.known ++ config_entries.map (fun e => e.long_name) }
        (argv.filter fun a => !(recognized
          { ctx with
            groups := ctx.groups ++ [p.name],
            known := ctx.known ++ config_entries.map (fun e => e.long_name) } a)) hign
      rcases hE : chassis_frontend_init_plugins_loop keyfile base_dir
          { ctx with
            groups := ctx.groups ++ [p.name],
            known := ctx.known ++ config_entries.map (fun e => e.long_name) }
          (argv.filter fun a => !(recognized
            { ctx with
              groups := ctx.groups ++ [p.name],
              known := ctx.known ++ config_entries.map (fun e => e.long_name) } a))
          rest
        with ⟨r, ctx2, argv2, rest2⟩
      rw [hE] at hrec
      have hopt2 : p.options = some config_entries := hopt
      simp only [hE, List.filterMap_cons, hopt2]
      simpa using hrec

/-- C5 amended: for each plugin exporting an option schema the registered
parser group is named after the plugin (group name = plugin name, in plugin
order), but the config-file section consulted when overlaying values is the
fixed section "mysql-proxy" for every plugin: the result depends on the key
file only through that section, so two plugins with different names read
their config values from the same section. -/
theorem init_plugins_group_and_section_spec (kf1 kf2 : GKeyFile)
    (plugins : List chassis_plugin) (ctx : GOptionContext) (argv : List String)
    (base_dir : String)
    (hlk : kf1.groups.lookup "mysql-proxy" = kf2.groups.lookup "mysql-proxy")
    (hign : ctx.ignore_unknown = true) :
    chassis_frontend_init_plugins plugins ctx argv (some kf1) base_dir
      = chassis_frontend_init_plugins plugins ctx argv (some kf2) base_dir ∧
    (chassis_frontend_init_plugins plugins ctx argv (some kf1) base_dir).2.1.groups
      = ctx.groups ++ plugins.filterMap (fun p =>
          match p.options with
          | some _ => some p.name
          | none => none) :=
  ⟨init_plugins_loop_keyfile_congr kf1 kf2 hlk base_dir plugins ctx argv,
   init_plugins_loop_groups (some kf1) base_dir plugins ctx argv hign⟩

/-- Witness for C5 amended: two key files agreeing on section "mysql-proxy"
but differing on the plugin-named sections produce identical results for the
plugins "a" and "b", and the registered groups are named "a" and "b". -/
theorem init_plugins_group_and_section_spec_witness :
    chassis_frontend_init_plugins [pluginC5, pluginC5b] ctxC5 [] (some kfC5w1) "/base"
      = chassis_frontend_init_plugins [pluginC5, pluginC5b] ctxC5 [] (some kfC5w2) "/base" ∧
    (chassis_frontend_init_plugins [pluginC5, pluginC5b] ctxC5 [] (some kfC5w1) "/base").2.1.groups
      = ctxC5.groups ++ [pluginC5, pluginC5b].filterMap (fun p =>
          match p.options with
          | some _ => some p.name
          | none => none) :=
  init_plugins_group_and_section_spec kfC5w1 kfC5w2 [pluginC5, pluginC5b] ctxC5
    [] "/base" (by decide) (by decide)

/-- C9: the Lua search-path seeders return 0 on every input — also when the
underlying setenv fails (modelled by `setenvImpl` returning `none`) or when
the environment afterwards holds a different value (read-back mismatch): such
failures are only logged, never surfaced as an error result. -/
theorem init_lua_path_always_ok
    (setenvImpl : List (String × String) → String → String →
      Option (List (String × String)))
    (env : List (String × String)) (set_path : Option String)
    (base_dir prg_name : String) :
    (chassis_frontend_init_lua_path setenvImpl env set_path base_dir prg_name).1
      = 0 ∧
    (chassis_frontend_init_lua_cpath setenvImpl env set_path base_dir prg_name).1
      = 0 := by
  constructor
  · cases set_path with
    | some p => rfl
    | none =>
      cases h : g_getenv env LUA_PATH_NAME with
      | some v => simp [chassis_frontend_init_lua_path, h]
      | none => simp [chassis_frontend_init_lua_path, h]
  · cases set_path with
    | some p => rfl
    | none =>
      cases h : g_getenv env LUA_CPATH_NAME with
      | some v => simp [chassis_frontend_init_lua_cpath, h]
      | none => simp [chassis_frontend_init_lua_cpath, h]

/-- C10: when the open succeeds — creating or truncating the pid file — and
the subsequent write fails, the function returns -1 with the error set, yet
the pid file stays truncated: the pre-call file state is not restored. -/
theorem write_pidfile_not_atomic (pid : Nat) (file : Option String) :
    chassis_frontend_write_pidfile true false pid file = (-1, true, some "") ∧
    (file ≠ some "" →
      (chassis_frontend_write_pidfile true false pid file).2.2 ≠ file) := by
  refine ⟨rfl, ?_⟩
  intro hne h
  exact hne h.symm

/-- Witness for C10: a pid file that held "123" before the call is left
truncated (content "") by the failed call, which returns -1 with the error
set. -/
theorem write_pidfile_not_atomic_witness :
    chassis_frontend_write_pidfile true false 42 (some "123")
      = (-1, true, some "") ∧
    (chassis_frontend_write_pidfile true false 42 (some "123")).2.2
      ≠ some "123" := by
  have h := write_pidfile_not_atomic 42 (some "123")
  exact ⟨h.1, h.2 (by decide)⟩

end ChassisFrontend
